import Mathlib

/-
Verification of the audio selection-and-trim pipeline of the Audio_Cutter
repository (src/app/components/AudioCutter.tsx, with the variant kept as
src/unnamed/part_000).

The component is a single React function component.  Its state (React
`useState` hooks, AudioCutter.tsx lines 9-14) and its handlers
(`handleFileChange`, `handlePlayPause`, `handleReset`, `handleTrim`, the
`ready`/`finish` WaveSurfer callbacks, and the two slider `onChange`
handlers, which are the raw setters `setStart`/`setEnd`) are embedded below
as pure functions on an explicit state record.  JavaScript numbers are
modelled as exact rationals; the Web-platform operations the trim pipeline
calls (`AudioContext.createBuffer`, `Float32Array.prototype.slice`,
`AudioBuffer.copyToChannel`, the `Blob` constructor) are embedded following
their Web Audio / ECMAScript / File API semantics, with integer conversions
(`ToUint32`, `ToIntegerOrInfinity`) made explicit.
-/

namespace AudioCutter

/-! ## ECMAScript / Web IDL numeric conversions, over exact rationals -/

/-- ECMAScript truncation toward zero (the integer part used by
`ToIntegerOrInfinity` and the Web IDL integer conversions). -/
def jsTrunc (q : ℚ) : ℤ :=
  if q < 0 then -(Int.floor (-q)) else Int.floor q

/-- Web IDL `unsigned long` conversion (no `[EnforceRange]` on
`BaseAudioContext.createBuffer`'s `length` argument): truncate toward zero,
then take the representative modulo 2^32 in `[0, 2^32)`. -/
def toUint32 (q : ℚ) : ℕ :=
  ((jsTrunc q) % (4294967296 : ℤ)).toNat

/-- ECMAScript `Math.round`: floor of the argument plus one half. -/
def jsMathRound (q : ℚ) : ℤ :=
  Int.floor (q + 1 / 2)

/-! ## The decoded audio buffer (Web Audio `AudioBuffer`) -/

/-- An `AudioBuffer`: channel count, frame count (`length`), sample rate,
and the per-channel sample data (`getChannelData`). -/
structure AudioBuffer where
  numberOfChannels : ℕ
  length : ℕ
  sampleRate : ℚ
  channels : List (List ℚ)
deriving DecidableEq

/-- Well-formedness of a decoded buffer: one sample list per channel, every
channel holding exactly `length` frames. -/
def AudioBuffer.WF (b : AudioBuffer) : Prop :=
  b.channels.length = b.numberOfChannels ∧ ∀ c ∈ b.channels, c.length = b.length

/-- `AudioBuffer.getChannelData(c)` as the `c`-th sample list. -/
def getChannelData (b : AudioBuffer) (c : ℕ) : List ℚ :=
  b.channels.getD c []

/-- `BaseAudioContext.createBuffer(numberOfChannels, length, sampleRate)`
(AudioCutter.tsx lines 98-102).  The `length` argument is converted with the
`unsigned long` conversion; per the Web Audio specification a
`NotSupportedError` is thrown when `numberOfChannels` or `length` is zero
(their nominal ranges start at 1).  The fresh buffer is zero-initialized. -/
def createBuffer (numberOfChannels : ℕ) (lengthArg : ℚ) (sampleRate : ℚ) :
    Except String AudioBuffer :=
  if numberOfChannels = 0 ∨ toUint32 lengthArg = 0 then
    Except.error "NotSupportedError"
  else Except.ok
    { numberOfChannels := numberOfChannels
      length := toUint32 lengthArg
      sampleRate := sampleRate
      channels := List.replicate numberOfChannels
        (List.replicate (toUint32 lengthArg) 0) }

/-- `ToIntegerOrInfinity`-based relative index of
`Float32Array.prototype.slice`: negative indices count from the end
(clamped at 0), nonnegative ones are clamped at the array length. -/
def relIndex (len : ℕ) (q : ℚ) : ℕ :=
  let i := jsTrunc q
  if i < 0 then ((len : ℤ) + i).toNat else min i.toNat len

/-- `Float32Array.prototype.slice(a, b)` on a channel's sample data
(AudioCutter.tsx line 106): the elements from index `relIndex a` (inclusive)
to `relIndex b` (exclusive); empty when the bounds cross. -/
def jsSlice (l : List ℚ) (a b : ℚ) : List ℚ :=
  (l.take (relIndex l.length b)).drop (relIndex l.length a)

/-- `AudioBuffer.copyToChannel(src, channel)` with the default start offset 0
(AudioCutter.tsx lines 105-108): overwrites the first
`min(src.length, dest.length)` frames of the destination channel, leaving
any remaining destination frames untouched. -/
def copyToChannel (dest src : List ℚ) : List ℚ :=
  src.take dest.length ++ dest.drop src.length

/-- The frame count `handleTrim` passes to `createBuffer`
(AudioCutter.tsx line 100): `buffer.sampleRate * (endTime - startTime)`,
converted by the `unsigned long` conversion. -/
def trimLength (sampleRate startTime endTime : ℚ) : ℕ :=
  toUint32 (sampleRate * (endTime - startTime))

/-- The buffer-building stage of `handleTrim` (AudioCutter.tsx lines
98-109), applied to the decoded source `buffer` and the computed
`startTime`/`endTime` in seconds: create the trimmed buffer (which may
throw, propagated as `Except.error`), then for each channel copy
`buffer.getChannelData(channel).slice(startTime * sampleRate,
endTime * sampleRate)` into the corresponding (zero-initialized) channel of
the trimmed buffer. -/
def handleTrimBuffer (buffer : AudioBuffer) (startTime endTime : ℚ) :
    Except String AudioBuffer :=
  Except.map
    (fun trimmedBuffer =>
      { trimmedBuffer with
        channels := (List.range buffer.numberOfChannels).map (fun channel =>
          copyToChannel (List.replicate trimmedBuffer.length 0)
            (jsSlice (getChannelData buffer channel)
              (startTime * buffer.sampleRate) (endTime * buffer.sampleRate))) })
    (createBuffer buffer.numberOfChannels
      (buffer.sampleRate * (endTime - startTime)) buffer.sampleRate)

/-- `new Blob([trimmedBuffer], \x7b type: 'audio/wav' \x7d)` together with the
download filename `a.download = 'trimmed-audio.wav'` (AudioCutter.tsx lines
112-119).  Per the File API, a blob part that is neither a `BufferSource`,
a `Blob`, nor a string is converted with ECMAScript `ToString`; an
`AudioBuffer` has no custom stringifier, so the part contributes the
constant text `"[object AudioBuffer]"`, independent of the samples.  The
result is the pair (file content, download filename). -/
def exportBlob (_trimmedBuffer : AudioBuffer) : String × String :=
  ("[object AudioBuffer]", "trimmed-audio.wav")

/-! ## The controller state (the React `useState` hooks, lines 9-14) -/

/-- The component's state: the selected file (identified by an index),
the WaveSurfer instance reference (identified by an instance id), the
mirrored playing flag, the recorded duration in seconds, and the selection
`start`/`end` in percent.  The field `end` is a Lean keyword and is spelled
`ende`. -/
structure CutterState where
  audioFile : Option ℕ
  waveSurferInstance : Option ℕ
  isPlaying : Bool
  duration : ℚ
  start : ℚ
  ende : ℚ
deriving DecidableEq

/-- The `useState` initial values (lines 9-14): no file, no instance, not
playing, duration 0, start 0, end 100. -/
def initialState : CutterState :=
  { audioFile := none, waveSurferInstance := none, isPlaying := false
    duration := 0, start := 0, ende := 100 }

/-- The `wavesurfer.on('ready', ...)` handler (lines 35-38):
`setDuration(wavesurfer.getDuration()); setEnd(wavesurfer.getDuration())`.
Note that it stores the duration in seconds into `end` and does not touch
`start`. -/
def onReady (d : ℚ) (s : CutterState) : CutterState :=
  { s with duration := d, ende := d }

/-- The `wavesurfer.on('finish', ...)` handler (lines 40-42). -/
def onFinish (s : CutterState) : CutterState :=
  { s with isPlaying := false }

/-- `handleFileChange` (lines 51-62) with a file present:
`setAudioFile(files[0]); setStart(0); setEnd(100); setIsPlaying(false)`
(the `waveSurferInstance.stop()` call only acts on the player, not on this
state record). -/
def handleFileChange (f : ℕ) (s : CutterState) : CutterState :=
  { s with audioFile := some f, start := 0, ende := 100, isPlaying := false }

/-- `handlePlayPause` (lines 65-70): guarded by `waveSurferInstance` being
non-null; toggles the adapter (`playPause()`) and flips the mirrored flag. -/
def handlePlayPause (s : CutterState) : CutterState :=
  if s.waveSurferInstance.isSome then { s with isPlaying := !s.isPlaying } else s

/-- `handleReset` (lines 73-82): guarded by `waveSurferInstance` being
non-null; stops the player and clears file, duration, range, and playing
flag.  It does not clear `waveSurferInstance` itself. -/
def handleReset (s : CutterState) : CutterState :=
  if s.waveSurferInstance.isSome then
    { s with audioFile := none, duration := 0, start := 0, ende := 100,
             isPlaying := false }
  else s

/-- The start slider's `onChange` is the raw setter `setStart` (line 227):
the value is stored as given. -/
def setStartC (v : ℚ) (s : CutterState) : CutterState :=
  { s with start := v }

/-- The end slider's `onChange` is the raw setter `setEnd` (line 241):
the value is stored as given. -/
def setEndC (v : ℚ) (s : CutterState) : CutterState :=
  { s with ende := v }

/-- `handleTrim`'s state effect and export request (lines 85-129).  The body
calls no React state setter, so the state component is the input state; when
the guard `waveSurferInstance && duration > 0` holds, the export side effect
is requested with `startTime = (start / 100) * duration` and
`endTime = (end / 100) * duration` (lines 87-88), otherwise nothing
happens. -/
def handleTrim (s : CutterState) : CutterState × Option (ℚ × ℚ) :=
  if s.waveSurferInstance.isSome ∧ 0 < s.duration then
    (s, some (s.start / 100 * s.duration, s.ende / 100 * s.duration))
  else (s, none)

/-- The selection-ordering invariant stated by the specification:
`0 ≤ start ≤ end ≤ 100`. -/
def Invariant (s : CutterState) : Prop :=
  0 ≤ s.start ∧ s.start ≤ s.ende ∧ s.ende ≤ 100

/-! ## The instance lifecycle (the `useEffect` on `audioFile`, lines 18-48)

A `Session` adds the effect-owned WaveSurfer instance to the picture: fresh
instances get consecutive ids, `alive` is the instance currently existing
(the previous one is destroyed by the effect cleanup, line 46, before a new
one is created), and a decode-completion (`ready`) event for a destroyed
instance is a no-op, because `wavesurfer.destroy()` unsubscribes all of the
instance's event listeners. -/

structure Session where
  nextId : ℕ
  alive : Option ℕ
  st : CutterState
deriving DecidableEq

/-- The session before any file is selected. -/
def initialSession : Session :=
  { nextId := 0, alive := none, st := initialState }

/-- One run of the `useEffect` after `audioFile` changed: the cleanup
destroys the previous instance; when a file is present a fresh instance is
created and `setWaveSurferInstance` stores it (line 44).  When no file is
present the effect body is skipped, so the stale `waveSurferInstance`
reference is NOT cleared. -/
def effectCycle (sess : Session) : Session :=
  match sess.st.audioFile with
  | some _ =>
      { nextId := sess.nextId + 1
        alive := some sess.nextId
        st := { sess.st with waveSurferInstance := some sess.nextId } }
  | none => { sess with alive := none }

/-- Selecting a file: `handleFileChange` runs, then the effect re-runs
because `audioFile` changed. -/
def selectFile (f : ℕ) (sess : Session) : Session :=
  effectCycle { sess with st := handleFileChange f sess.st }

/-- Completion of instance `i`'s decode, reporting duration `d`: the
`ready` handler registered on that instance runs only if the instance still
exists (a destroyed instance's listeners were unsubscribed by
`destroy()`). -/
def decodeReady (i : ℕ) (d : ℚ) (sess : Session) : Session :=
  if sess.alive = some i then { sess with st := onReady d sess.st } else sess

/-- The reset event at session level: `handleReset` runs; if it cleared
`audioFile`, the effect re-runs (destroying the instance without clearing
the `waveSurferInstance` reference). -/
def resetEvent (sess : Session) : Session :=
  if sess.st.waveSurferInstance.isSome then
    effectCycle { sess with st := handleReset sess.st }
  else sess

/-! ## Helper lemmas -/

/-- On a nonnegative rational below 2^32 the `unsigned long` conversion is
just the floor. -/
lemma toUint32_eq_floor (q : ℚ) (h0 : 0 ≤ q) (h1 : q < 4294967296) :
    (toUint32 q : ℤ) = Int.floor q := by
  unfold toUint32 jsTrunc
  rw [if_neg (not_lt.mpr h0)]
  have hf0 : 0 ≤ Int.floor q := Int.floor_nonneg.mpr h0
  have hf1 : Int.floor q < 4294967296 := by
    have h : (Int.floor q : ℚ) < 4294967296 := lt_of_le_of_lt (Int.floor_le q) h1
    exact_mod_cast h
  rw [Int.emod_eq_of_lt hf0 hf1, Int.toNat_of_nonneg hf0]

/-- On a natural number below 2^32 the `unsigned long` conversion is the
identity. -/
lemma toUint32_natCast (n : ℕ) (h : n < 4294967296) : toUint32 (n : ℚ) = n := by
  have h0 : (0 : ℚ) ≤ (n : ℚ) := by positivity
  have h1 : (n : ℚ) < 4294967296 := by exact_mod_cast h
  have h2 : (toUint32 (n : ℚ) : ℤ) = Int.floor ((n : ℚ)) := toUint32_eq_floor _ h0 h1
  rw [Int.floor_natCast] at h2
  exact_mod_cast h2

/-- The difference of two `Math.round`s is within one unit of the floor of
the difference of the arguments. -/
lemma round_diff_floor_bound (A B : ℚ) :
    |(jsMathRound B - jsMathRound A) - Int.floor (B - A)| ≤ 1 := by
  unfold jsMathRound
  have hB1 : ((Int.floor (B + 1 / 2) : ℤ) : ℚ) ≤ B + 1 / 2 := Int.floor_le _
  have hB2 : B + 1 / 2 - 1 < ((Int.floor (B + 1 / 2) : ℤ) : ℚ) := Int.sub_one_lt_floor _
  have hA1 : ((Int.floor (A + 1 / 2) : ℤ) : ℚ) ≤ A + 1 / 2 := Int.floor_le _
  have hA2 : A + 1 / 2 - 1 < ((Int.floor (A + 1 / 2) : ℤ) : ℚ) := Int.sub_one_lt_floor _
  have hD1 : ((Int.floor (B - A) : ℤ) : ℚ) ≤ B - A := Int.floor_le _
  have hD2 : B - A - 1 < ((Int.floor (B - A) : ℤ) : ℚ) := Int.sub_one_lt_floor _
  rw [abs_le]
  constructor
  · have h : (-2 : ℚ) <
        ((Int.floor (B + 1 / 2) - Int.floor (A + 1 / 2) - Int.floor (B - A) : ℤ) : ℚ) := by
      push_cast
      linarith
    have h2 : (-2 : ℤ) < Int.floor (B + 1 / 2) - Int.floor (A + 1 / 2) - Int.floor (B - A) := by
      exact_mod_cast h
    omega
  · have h : ((Int.floor (B + 1 / 2) - Int.floor (A + 1 / 2) - Int.floor (B - A) : ℤ) : ℚ) <
        2 := by
      push_cast
      linarith
    have h2 : Int.floor (B + 1 / 2) - Int.floor (A + 1 / 2) - Int.floor (B - A) < (2 : ℤ) := by
      exact_mod_cast h
    omega

/-- A successful `createBuffer` has the converted length. -/
lemma createBuffer_ok_length {ch : ℕ} {q sr : ℚ} {out : AudioBuffer}
    (h : createBuffer ch q sr = Except.ok out) : out.length = toUint32 q := by
  unfold createBuffer at h
  split at h
  · exact absurd h (by simp)
  · rw [← Except.ok.inj h]

/-- `createBuffer` succeeds, with zero-initialized channels, when neither
argument is degenerate. -/
lemma createBuffer_ok_of {ch : ℕ} {q sr : ℚ} (hch : ch ≠ 0) (hq : toUint32 q ≠ 0) :
    createBuffer ch q sr = Except.ok
      { numberOfChannels := ch, length := toUint32 q, sampleRate := sr,
        channels := List.replicate ch (List.replicate (toUint32 q) 0) } := by
  unfold createBuffer
  rw [if_neg]
  push_neg
  exact ⟨hch, hq⟩

/-- The frame count of a successfully trimmed buffer is the converted
`sampleRate * (endTime - startTime)`. -/
lemma handleTrimBuffer_length {buffer out : AudioBuffer} {a b : ℚ}
    (h : handleTrimBuffer buffer a b = Except.ok out) :
    out.length = trimLength buffer.sampleRate a b := by
  unfold handleTrimBuffer at h
  cases hcb : createBuffer buffer.numberOfChannels
      (buffer.sampleRate * (b - a)) buffer.sampleRate with
  | error e => rw [hcb] at h; exact absurd h (by simp [Except.map])
  | ok tb =>
      rw [hcb] at h
      simp only [Except.map] at h
      have hl : tb.length = toUint32 (buffer.sampleRate * (b - a)) :=
        createBuffer_ok_length hcb
      rw [← Except.ok.inj h]
      exact hl

/-- Copying a source of exactly the destination's length replaces the
destination wholesale. -/
lemma copyToChannel_of_length_eq {dest src : List ℚ} (h : src.length = dest.length) :
    copyToChannel dest src = src := by
  unfold copyToChannel
  rw [← h, List.take_length, h, List.drop_length, List.append_nil]

/-- Slicing a channel from 0 to its own length returns the channel. -/
lemma jsSlice_zero_length (l : List ℚ) : jsSlice l 0 (l.length : ℚ) = l := by
  have h1 : relIndex l.length 0 = 0 := by
    unfold relIndex jsTrunc
    norm_num
  have h2 : relIndex l.length ((l.length : ℚ)) = l.length := by
    unfold relIndex jsTrunc
    rw [if_neg (not_lt.mpr (by positivity : (0 : ℚ) ≤ (l.length : ℚ)))]
    rw [Int.floor_natCast]
    rw [if_neg (not_lt.mpr (Int.natCast_nonneg l.length))]
    simp
  unfold jsSlice
  rw [h1, h2, List.drop_zero, List.take_length]

/-- Mapping a pointwise-identity function over the `getD` views of a list
indexed by `range` rebuilds the list. -/
lemma map_range_getD (l : List (List ℚ)) (f : List ℚ → List ℚ)
    (hf : ∀ x ∈ l, f x = x) :
    (List.range l.length).map (fun c => f (l.getD c [])) = l := by
  apply List.ext_getElem
  · simp
  · intro i h1 h2
    simp only [List.getElem_map, List.getElem_range]
    rw [List.getD_eq_getElem l [] h2]
    exact hf _ (List.getElem_mem h2)

/-! ## Claim theorems -/

/-- Claim C1 (code bug): the claim says the `ready(duration)` handler
records the duration and resets the TimeRange to start 0, end 100, for
every loaded file and every reported duration.  The code
(AudioCutter.tsx lines 35-38) records the duration but runs
`setEnd(wavesurfer.getDuration())`, storing the duration in seconds into
`end` — a field every other use site (sliders, display, `handleTrim`)
interprets as a percentage.  Evaluated at a 10-second file: after the
`ready` event the controller holds duration 10, start 0, and end 10, not
end 100. -/
theorem ready_stores_duration_into_end :
    (decodeReady 0 10 (selectFile 0 initialSession)).st.duration = 10 ∧
    (decodeReady 0 10 (selectFile 0 initialSession)).st.start = 0 ∧
    (decodeReady 0 10 (selectFile 0 initialSession)).st.ende = 10 ∧
    (decodeReady 0 10 (selectFile 0 initialSession)).st.ende ≠ 100 := by
  norm_num [decodeReady, selectFile, effectCycle, handleFileChange, onReady,
    initialSession, initialState]

/-- A one-channel, one-frame source with sample value 5, and the result of
slicing its full range. -/
def srcA : AudioBuffer := ⟨1, 1, 1, [[5]]⟩

/-- A one-channel, one-frame source with sample value 7. -/
def srcB : AudioBuffer := ⟨1, 1, 1, [[7]]⟩

/-- Claim C2 (code bug): the claim says the export step serializes the
trimmed buffer's samples into a container that round-trips losslessly and
downloads it as `trimmed-audio.wav`.  The filename part holds, but
`new Blob([trimmedBuffer], ...)` stringifies the `AudioBuffer`, so the file
content is the constant text `"[object AudioBuffer]"` for every trimmed
buffer: two slicer outputs that differ in their sample data export to
identical bytes, so no decoder can recover the samples from the produced
file. -/
theorem export_not_lossless :
    handleTrimBuffer srcA 0 1 = Except.ok srcA ∧
    handleTrimBuffer srcB 0 1 = Except.ok srcB ∧
    srcA ≠ srcB ∧
    exportBlob srcA = exportBlob srcB ∧
    (exportBlob srcA).2 = "trimmed-audio.wav" ∧
    ¬ ∃ dec : String → AudioBuffer,
        dec (exportBlob srcA).1 = srcA ∧ dec (exportBlob srcB).1 = srcB := by
  refine ⟨?_, ?_, ?_, rfl, rfl, ?_⟩
  · norm_num [handleTrimBuffer, createBuffer, toUint32, jsTrunc, srcA,
      getChannelData, jsSlice, relIndex, copyToChannel, List.range_succ, Except.map]
  · norm_num [handleTrimBuffer, createBuffer, toUint32, jsTrunc, srcB,
      getChannelData, jsSlice, relIndex, copyToChannel, List.range_succ, Except.map]
  · simp [srcA, srcB]
  · rintro ⟨dec, h1, h2⟩
    have hs : (exportBlob srcA).1 = (exportBlob srcB).1 := rfl
    have hAB : srcA = srcB := by rw [← h1, ← h2, hs]
    have hne : srcA ≠ srcB := by simp [srcA, srcB]
    exact hne hAB

/-- A controller state with a loaded 10-second file and a zero-length
selection at 50 percent. -/
def stateC3 : CutterState :=
  { audioFile := some 0, waveSurferInstance := some 0, isPlaying := false,
    duration := 10, start := 50, ende := 50 }

/-- A decoded 10-second stereo 44100 Hz source. -/
def bufC3 : AudioBuffer :=
  ⟨2, 441000, 44100, [List.replicate 441000 0, List.replicate 441000 0]⟩

/-- Claim C3 (code bug): the claim says a zero-length selection
(`start == end`) trims to a zero-frame buffer and a zero-length exported
file without error.  In the code, `handleTrim` with `start = end = 50` on a
10-second file computes `startTime = endTime = 5` and then calls
`createBuffer(channels, sampleRate * 0, sampleRate)`; a zero frame count is
outside `createBuffer`'s nominal range, so it throws `NotSupportedError`
(caught by the promise chain's `.catch`, which only logs), and no buffer or
file is produced. -/
theorem trim_zero_range_throws :
    (handleTrim stateC3).2 = some (5, 5) ∧
    handleTrimBuffer bufC3 5 5 = Except.error "NotSupportedError" := by
  constructor
  · norm_num [handleTrim, stateC3]
  · norm_num [handleTrimBuffer, createBuffer, toUint32, jsTrunc, bufC3, Except.map]

/-- Claim C4, counterexample: the claim says `setStart(v)` clamps `v` into
`[0, end]` so the ends can never cross.  The slider `onChange` handlers are
the raw React setters: starting from the reachable state with start 0 and
end 50 (file selected, end slider moved to 50), `setStart(80)` stores 80
unclamped, and the selection ends cross (start 80 > end 50). -/
theorem setStart_not_clamped :
    (setStartC 80 (setEndC 50 (handleFileChange 0 initialState))).start = 80 ∧
    ¬ ((setStartC 80 (setEndC 50 (handleFileChange 0 initialState))).start ≤
       (setStartC 80 (setEndC 50 (handleFileChange 0 initialState))).ende) := by
  norm_num [setStartC, setEndC, handleFileChange, initialState]

/-- Claim C4, amended: `setStart(v)` and `setEnd(v)` store `v` unchanged
(no clamping in the controller); the bounds `[0, end]` and `[start, 100]`
exist only as the sliders' `min`/`max` props, so updates within those
bounds preserve `0 ≤ start ≤ end ≤ 100`, while an out-of-range write is
stored unclamped, and the `ready` handler sets `end` to the duration in
seconds, which breaks `end ≤ 100` whenever the duration exceeds 100. -/
theorem setters_store_raw (v d : ℚ) (s : CutterState) :
    (setStartC v s).start = v ∧ (setEndC v s).ende = v ∧
    (Invariant s → 0 ≤ v → v ≤ s.ende → Invariant (setStartC v s)) ∧
    (Invariant s → s.start ≤ v → v ≤ 100 → Invariant (setEndC v s)) ∧
    (100 < d → ¬ Invariant (onReady d s)) := by
  refine ⟨rfl, rfl, ?_, ?_, ?_⟩
  · rintro ⟨h1, h2, h3⟩ hv1 hv2
    exact ⟨hv1, hv2, h3⟩
  · rintro ⟨h1, h2, h3⟩ hv1 hv2
    exact ⟨h1, hv1, hv2⟩
  · rintro hd ⟨h1, h2, h3⟩
    simp only [onReady] at h3
    exact absurd h3 (not_le.mpr hd)

/-- A reachable state with start 0 and end 50 (file selected, end slider
moved to 50). -/
def stateC4W : CutterState := setEndC 50 (handleFileChange 0 initialState)

/-- Witness for the amended C4 theorem at `v = 30`, `d = 200`, on the
reachable state with start 0 and end 50. -/
theorem setters_store_raw_witness :
    Invariant stateC4W ∧ (0 : ℚ) ≤ 30 ∧ (30 : ℚ) ≤ stateC4W.ende ∧
    (100 : ℚ) < 200 ∧
    (setStartC 30 stateC4W).start = 30 ∧ Invariant (setStartC 30 stateC4W) ∧
    ¬ Invariant (onReady 200 stateC4W) := by
  have hInv : Invariant stateC4W := by
    refine ⟨?_, ?_, ?_⟩ <;>
      norm_num [Invariant, stateC4W, setEndC, handleFileChange, initialState]
  have h30 : (30 : ℚ) ≤ stateC4W.ende := by
    norm_num [stateC4W, setEndC, handleFileChange, initialState]
  exact ⟨hInv, by norm_num, h30, by norm_num,
    (setters_store_raw 30 200 stateC4W).1,
    (setters_store_raw 30 200 stateC4W).2.2.1 hInv (by norm_num) h30,
    (setters_store_raw 30 200 stateC4W).2.2.2.2 (by norm_num)⟩

/-- The controller state after loading a 10-second file and receiving its
`ready` event. -/
def stateReadyC8 : CutterState := (decodeReady 0 10 (selectFile 0 initialSession)).st

/-- Claim C8, counterexample: the claim says `togglePlayPause()` has no
effect after `reset()` has returned the controller to NoFile.  `handleReset`
clears file, duration, range and the playing flag, but never clears the
`waveSurferInstance` reference, so in the resulting NoFile state
`handlePlayPause`'s guard still passes and it flips the mirrored playing
flag from false to true (calling `playPause()` on the destroyed
instance). -/
theorem playPause_after_reset_flips :
    (handleReset stateReadyC8).audioFile = none ∧
    (handleReset stateReadyC8).duration = 0 ∧
    (handleReset stateReadyC8).isPlaying = false ∧
    (handleReset stateReadyC8).waveSurferInstance = some 0 ∧
    (handlePlayPause (handleReset stateReadyC8)).isPlaying = true := by
  norm_num [stateReadyC8, decodeReady, selectFile, effectCycle, handleFileChange,
    onReady, initialSession, initialState, handleReset, handlePlayPause]

/-- Claim C8, amended: `togglePlayPause()` is guarded only by the
`waveSurferInstance` reference being non-null.  With no instance reference
(before the first file load) it has no effect at all; whenever an instance
reference exists it toggles the adapter and flips the mirrored playing
flag — including after `reset()`, which returns the controller to NoFile
but does not clear the instance reference. -/
theorem playPause_guarded_by_instance (s : CutterState) :
    (s.waveSurferInstance = none → handlePlayPause s = s) ∧
    (s.waveSurferInstance.isSome →
      (handlePlayPause s).isPlaying = !s.isPlaying ∧
      (handlePlayPause s).audioFile = s.audioFile ∧
      (handleReset s).waveSurferInstance = s.waveSurferInstance) := by
  constructor
  · intro h
    simp [handlePlayPause, h]
  · intro h
    refine ⟨?_, ?_, ?_⟩ <;> simp [handlePlayPause, handleReset, h]

/-- Witness for the amended C8 theorem: before the first load the toggle is
inert; on the post-ready state it flips the flag and reset keeps the
instance reference. -/
theorem playPause_guarded_by_instance_witness :
    initialState.waveSurferInstance = none ∧
    handlePlayPause initialState = initialState ∧
    stateReadyC8.waveSurferInstance.isSome = true ∧
    ((handlePlayPause stateReadyC8).isPlaying = !stateReadyC8.isPlaying ∧
      (handlePlayPause stateReadyC8).audioFile = stateReadyC8.audioFile ∧
      (handleReset stateReadyC8).waveSurferInstance = stateReadyC8.waveSurferInstance) := by
  have h0 : initialState.waveSurferInstance = none := rfl
  have h1 : stateReadyC8.waveSurferInstance.isSome = true := by
    norm_num [stateReadyC8, decodeReady, selectFile, effectCycle, handleFileChange,
      onReady, initialSession, initialState]
  exact ⟨h0, (playPause_guarded_by_instance initialState).1 h0, h1,
    (playPause_guarded_by_instance stateReadyC8).2 h1⟩

/-- The first component of `handleTrim` is always the input state. -/
lemma handleTrim_fst (s : CutterState) : (handleTrim s).1 = s := by
  unfold handleTrim
  split <;> rfl

/-- With the guard satisfied, `handleTrim` requests the export at the
percent-mapped times. -/
lemma handleTrim_snd_pos {s : CutterState} (h1 : s.waveSurferInstance.isSome)
    (h2 : 0 < s.duration) :
    (handleTrim s).2 =
      some (s.start / 100 * s.duration, s.ende / 100 * s.duration) := by
  unfold handleTrim
  rw [if_pos ⟨h1, h2⟩]

/-- With duration 0 the guard fails and `handleTrim` requests nothing. -/
lemma handleTrim_snd_zero {s : CutterState} (h : s.duration = 0) :
    (handleTrim s).2 = none := by
  unfold handleTrim
  rw [if_neg]
  rintro ⟨-, hlt⟩
  rw [h] at hlt
  exact lt_irrefl 0 hlt

/-- Claim C9 (confirmed): `handleTrim` calls no state setter, so the
controller state after `trim()` is the input state in every case; with
`duration = 0` the guard fails and no export request is issued; with the
guard satisfied the export side effect is requested without touching the
state. -/
theorem trim_preserves_state (s : CutterState) :
    (handleTrim s).1 = s ∧
    (s.duration = 0 → (handleTrim s).2 = none) ∧
    (s.waveSurferInstance.isSome → 0 < s.duration →
      (handleTrim s).2 =
        some (s.start / 100 * s.duration, s.ende / 100 * s.duration)) :=
  ⟨handleTrim_fst s, fun h => handleTrim_snd_zero h,
    fun h1 h2 => handleTrim_snd_pos h1 h2⟩

/-- Witness for C9: a no-file state exports nothing and is unchanged; the
loaded state `stateC3` is unchanged and requests the export. -/
theorem trim_preserves_state_witness :
    initialState.duration = 0 ∧
    (handleTrim initialState).1 = initialState ∧
    (handleTrim initialState).2 = none ∧
    stateC3.waveSurferInstance.isSome = true ∧ 0 < stateC3.duration ∧
    (handleTrim stateC3).1 = stateC3 ∧
    (handleTrim stateC3).2 =
      some (stateC3.start / 100 * stateC3.duration,
        stateC3.ende / 100 * stateC3.duration) := by
  refine ⟨rfl, (trim_preserves_state initialState).1,
    (trim_preserves_state initialState).2.1 rfl, rfl, ?_,
    (trim_preserves_state stateC3).1, ?_⟩
  · norm_num [stateC3]
  · exact (trim_preserves_state stateC3).2.2 rfl (by norm_num [stateC3])

/-- Claim C10 (confirmed): selecting a new file resets start to 0 and end
to 100 immediately but does not touch the recorded duration; until the new
file's `ready` event fires, `handleTrim` (and the displayed times, which
use the same `(value / 100) * duration` mapping) map the percentage range
against the stale previous duration, so the full default range maps to
`(0, old duration)`. -/
theorem fileChange_stale_duration (f : ℕ) (s : CutterState) :
    (handleFileChange f s).start = 0 ∧
    (handleFileChange f s).ende = 100 ∧
    (handleFileChange f s).duration = s.duration ∧
    (handleFileChange f s).audioFile = some f ∧
    (s.waveSurferInstance.isSome → 0 < s.duration →
      (handleTrim (handleFileChange f s)).2 = some (0, s.duration)) := by
  refine ⟨rfl, rfl, rfl, rfl, ?_⟩
  intro h1 h2
  have h3 : (handleFileChange f s).waveSurferInstance.isSome := h1
  have h4 : (0 : ℚ) < (handleFileChange f s).duration := h2
  rw [handleTrim_snd_pos h3 h4]
  have hstart : (handleFileChange f s).start = 0 := rfl
  have hende : (handleFileChange f s).ende = 100 := rfl
  have hdur : (handleFileChange f s).duration = s.duration := rfl
  rw [hstart, hende, hdur]
  norm_num

/-- Witness for C10 on the loaded post-ready state (duration 10): selecting
a new file keeps duration 10, resets the range, and an interim trim maps
the full range to `(0, 10)` against the stale duration. -/
theorem fileChange_stale_duration_witness :
    stateReadyC8.waveSurferInstance.isSome = true ∧
    0 < stateReadyC8.duration ∧
    (handleFileChange 1 stateReadyC8).start = 0 ∧
    (handleFileChange 1 stateReadyC8).ende = 100 ∧
    (handleFileChange 1 stateReadyC8).duration = stateReadyC8.duration ∧
    (handleTrim (handleFileChange 1 stateReadyC8)).2 = some (0, stateReadyC8.duration) := by
  have h1 : stateReadyC8.waveSurferInstance.isSome = true := by
    norm_num [stateReadyC8, decodeReady, selectFile, effectCycle, handleFileChange,
      onReady, initialSession, initialState]
  have h2 : 0 < stateReadyC8.duration := by
    norm_num [stateReadyC8, decodeReady, selectFile, effectCycle, handleFileChange,
      onReady, initialSession, initialState]
  exact ⟨h1, h2, (fileChange_stale_duration 1 stateReadyC8).1,
    (fileChange_stale_duration 1 stateReadyC8).2.1,
    (fileChange_stale_duration 1 stateReadyC8).2.2.1,
    (fileChange_stale_duration 1 stateReadyC8).2.2.2.2 h1 h2⟩

/-- Claim C5 (confirmed): for a decoded buffer with sample rate `sr` and a
valid pair of times `a ≤ b` (with the product below the `unsigned long`
wrap-around), the frame count the code computes — the truncation of
`sr * (b - a)` — is within one rounding unit of
`round(b * sr) - round(a * sr)`, and it is the `length` of every buffer
`handleTrimBuffer` successfully produces; at the spec's scenario
(10-second source, start 20 percent → 2 s, end 50 percent → 5 s,
44100 Hz) the frame count is exactly `3 * 44100`. -/
theorem slice_frame_count (sr a b : ℚ) (hsr : 0 < sr) (ha : 0 ≤ a) (hab : a ≤ b)
    (hbound : sr * (b - a) < 4294967296) :
    |(jsMathRound (b * sr) - jsMathRound (a * sr)) - (trimLength sr a b : ℤ)| ≤ 1 ∧
    (∀ buffer out : AudioBuffer, buffer.sampleRate = sr →
      handleTrimBuffer buffer a b = Except.ok out →
      out.length = trimLength sr a b) ∧
    trimLength 44100 2 5 = 3 * 44100 := by
  have h0 : 0 ≤ sr * (b - a) := mul_nonneg hsr.le (sub_nonneg.mpr hab)
  have hL : (trimLength sr a b : ℤ) = Int.floor (sr * (b - a)) := by
    unfold trimLength
    exact toUint32_eq_floor _ h0 hbound
  refine ⟨?_, ?_, ?_⟩
  · rw [hL]
    have hr : sr * (b - a) = b * sr - a * sr := by ring
    rw [hr]
    exact round_diff_floor_bound (a * sr) (b * sr)
  · intro buffer out hs h
    rw [← hs]
    exact handleTrimBuffer_length h
  · norm_num [trimLength, toUint32, jsTrunc]
    rfl

/-- Witness for C5 at the spec's concrete scenario: 44100 Hz, 2 s to 5 s. -/
theorem slice_frame_count_witness :
    (0 : ℚ) < 44100 ∧ (0 : ℚ) ≤ 2 ∧ (2 : ℚ) ≤ 5 ∧
    (44100 : ℚ) * (5 - 2) < 4294967296 ∧
    |(jsMathRound (5 * 44100) - jsMathRound (2 * 44100)) - (trimLength 44100 2 5 : ℤ)| ≤ 1 ∧
    trimLength 44100 2 5 = 3 * 44100 :=
  ⟨by norm_num, by norm_num, by norm_num, by norm_num,
    (slice_frame_count 44100 2 5 (by norm_num) (by norm_num) (by norm_num)
      (by norm_num)).1,
    (slice_frame_count 44100 2 5 (by norm_num) (by norm_num) (by norm_num)
      (by norm_num)).2.2⟩

/-- Slicing the full range of an explicit buffer rebuilds the buffer. -/
lemma slice_full_core (nch L : ℕ) (sr : ℚ) (cs : List (List ℚ))
    (hwf1 : cs.length = nch) (hwf2 : ∀ c ∈ cs, c.length = L)
    (hlen : 0 < L) (hbound : L < 4294967296) (hch : 0 < nch) (hsr : 0 < sr) :
    handleTrimBuffer ⟨nch, L, sr, cs⟩ 0 ((L : ℚ) / sr) =
      Except.ok ⟨nch, L, sr, cs⟩ := by
  have hsr0 : sr ≠ 0 := ne_of_gt hsr
  have harg : sr * ((L : ℚ) / sr - 0) = (L : ℚ) := by field_simp
  have hu : toUint32 ((L : ℚ)) = L := toUint32_natCast L hbound
  have hcb : createBuffer nch (sr * ((L : ℚ) / sr - 0)) sr =
      Except.ok ⟨nch, L, sr, List.replicate nch (List.replicate L 0)⟩ := by
    rw [harg, createBuffer_ok_of hch.ne' (by rw [hu]; exact hlen.ne'), hu]
  unfold handleTrimBuffer
  show Except.map _ (createBuffer nch (sr * ((L : ℚ) / sr - 0)) sr) = _
  rw [hcb]
  simp only [Except.map, Except.ok.injEq, getChannelData]
  show AudioBuffer.mk nch L sr _ = _
  rw [AudioBuffer.mk.injEq]
  refine ⟨rfl, rfl, rfl, ?_⟩
  rw [← hwf1]
  exact map_range_getD cs
    (fun x => copyToChannel (List.replicate L 0) (jsSlice x (0 * sr) ((L : ℚ) / sr * sr)))
    (fun x hx => by
      have hxlen : x.length = L := hwf2 x hx
      show copyToChannel (List.replicate L 0) (jsSlice x (0 * sr) ((L : ℚ) / sr * sr)) = x
      rw [zero_mul, div_mul_cancel₀ ((L : ℚ)) hsr0, ← hxlen, jsSlice_zero_length]
      exact copyToChannel_of_length_eq (by simp))

/-- Claim C6 (confirmed): trimming the full range — `startTime = 0`,
`endTime = frameCount / sampleRate`, i.e. the whole duration — of any
well-formed, nonempty decoded buffer returns a buffer equal to the source:
same channel count, same sample rate, same frame count, identical samples
in every channel. -/
theorem slice_full_range_eq (d : AudioBuffer) (hwf : d.WF) (hlen : 0 < d.length)
    (hbound : d.length < 4294967296) (hch : 0 < d.numberOfChannels)
    (hsr : 0 < d.sampleRate) :
    handleTrimBuffer d 0 ((d.length : ℚ) / d.sampleRate) = Except.ok d := by
  obtain ⟨nch, L, sr, cs⟩ := d
  exact slice_full_core nch L sr cs hwf.1 hwf.2 hlen hbound hch hsr

/-- A small well-formed stereo buffer used as the C6 witness input. -/
def bufW : AudioBuffer := ⟨2, 2, 4, [[1, 2], [3, 4]]⟩

/-- Witness for C6 on a concrete stereo buffer. -/
theorem slice_full_range_eq_witness :
    bufW.WF ∧ 0 < bufW.length ∧ bufW.length < 4294967296 ∧
    0 < bufW.numberOfChannels ∧ (0 : ℚ) < bufW.sampleRate ∧
    handleTrimBuffer bufW 0 ((bufW.length : ℚ) / bufW.sampleRate) = Except.ok bufW := by
  have hwf : bufW.WF := by
    refine ⟨rfl, ?_⟩
    intro c hc
    simp only [bufW, List.mem_cons, List.not_mem_nil, or_false] at hc
    rcases hc with rfl | rfl <;> rfl
  have hsr : (0 : ℚ) < bufW.sampleRate := by norm_num [bufW]
  exact ⟨hwf, by norm_num [bufW], by norm_num [bufW], by norm_num [bufW], hsr,
    slice_full_range_eq bufW hwf (by norm_num [bufW]) (by norm_num [bufW])
      (by norm_num [bufW]) hsr⟩

/-- Claim C7 (confirmed): selecting file B while file A's decode is still
in flight destroys A's WaveSurfer instance (the effect cleanup runs before
the new instance is created, and `destroy()` unsubscribes A's listeners),
so A's eventual `ready` event is a no-op: after the two selections, A's
`ready` leaves the session unchanged, B's `ready` records B's duration on
B's instance, and A's `ready` arriving even after B's is still a no-op —
the duration, range and player instance reflect B only. -/
theorem stale_ready_ignored (sess : Session) (fA fB : ℕ) (dA dB : ℚ) :
    decodeReady sess.nextId dA (selectFile fB (selectFile fA sess)) =
      selectFile fB (selectFile fA sess) ∧
    (decodeReady (selectFile fA sess).nextId dB
        (selectFile fB (selectFile fA sess))).st.duration = dB ∧
    (decodeReady (selectFile fA sess).nextId dB
        (selectFile fB (selectFile fA sess))).st.waveSurferInstance =
      some (selectFile fA sess).nextId ∧
    (decodeReady (selectFile fA sess).nextId dB
        (selectFile fB (selectFile fA sess))).st.start = 0 ∧
    (decodeReady (selectFile fA sess).nextId dB
        (selectFile fB (selectFile fA sess))).st.ende = dB ∧
    decodeReady sess.nextId dA
        (decodeReady (selectFile fA sess).nextId dB
          (selectFile fB (selectFile fA sess))) =
      decodeReady (selectFile fA sess).nextId dB
        (selectFile fB (selectFile fA sess)) := by
  simp [selectFile, effectCycle, handleFileChange, decodeReady, onReady]

end AudioCutter
